import Mathlib

/-!
Shallow embedding of the persistent gateway connection client of
`src/stark-frontend/src/lib/gateway-client.ts` (class `GatewayClient`).

The client is single-threaded; we model it as a state record plus pure
transition functions, one per handler or public method of the class.
Each transition returns the successor state together with the list of
observable outputs it produces (promise settlements, listener
invocations, wire sends, reconnect scheduling), in the order the
TypeScript code produces them.

Callbacks are opaque: listeners are identified by a `Nat` tag, payloads
by an `Option String` (the `unknown` JSON value; `none` stands for
`undefined`).  Timers are modelled by the set of currently armed timer
ids: `setTimeout` arms a timer, `clearTimeout` disarms it, and a
"timeout fires" transition is a no-op when the timer was disarmed.
`JSON.parse` is external; `handleMessage` takes its result, `none`
standing for an unparseable frame (the thrown exception that the
surrounding try/catch turns into a log line).
-/

namespace Gateway

/-- `EVENT_RING_BUFFER_SIZE` from the source. -/
def EVENT_RING_BUFFER_SIZE : Nat := 500

/-- `maxReconnectAttempts` field initializer from the source. -/
def maxReconnectAttempts : Nat := 5

/-- One entry of the event ring buffer: `{ event, data }`. -/
structure BufEntry where
  event : String
  data : Option String
deriving DecidableEq

/-- WebSocket `readyState` values. -/
inductive WsReady where
  | connecting
  | opened
  | closing
  | closedWs
deriving DecidableEq

/-- Observable effects of a transition, in emission order. -/
inductive Output where
  /-- `pending.resolve(message.result)` -/
  | resolved (rid : String) (result : Option String)
  /-- `pending.reject(new Error(msg))` / `reject(new Error(msg))` -/
  | rejectedWith (rid : String) (msg : String)
  /-- an exact-topic listener callback invoked with `data` -/
  | listenerCall (cb : Nat) (data : Option String)
  /-- a wildcard listener callback invoked with `{ event, data }` -/
  | wildcardCall (cb : Nat) (event : String) (data : Option String)
  /-- `setTimeout(() => this.connect(), delayMs)` in the onclose handler -/
  | scheduleReconnect (delayMs : Nat)
  /-- `this.ws.send(JSON.stringify({ id, method, params }))` -/
  | wireSend (rid : String) (method : String) (params : Option String)
deriving DecidableEq

/-- The mutable fields of class `GatewayClient`.  `pendingRequests` keeps
the correlation ids in `Map` insertion order; `rpcTimers` is the set of
ids whose 30 s timeout is currently armed (armed exactly while the entry
is in the map, since the code clears the timer whenever it deletes the
entry).  `eventListeners` is the `Map<string, Set<EventCallback>>`, and
`wildcardListeners` the `Set<EventCallback>`, both in insertion order. -/
structure ClientState where
  wsPresent : Bool
  wsReady : WsReady
  pendingRequests : List String
  rpcTimers : List String
  eventListeners : List (String × List Nat)
  wildcardListeners : List Nat
  reconnectAttempts : Nat
  reconnectDelay : Nat
  intentionalDisconnect : Bool
  authenticated : Bool
  eventBuffer : List BufEntry
deriving DecidableEq

/-- Field initializers of `GatewayClient` (constructor state). -/
def initState : ClientState :=
  { wsPresent := false
    wsReady := WsReady.closedWs
    pendingRequests := []
    rpcTimers := []
    eventListeners := []
    wildcardListeners := []
    reconnectAttempts := 0
    reconnectDelay := 1000
    intentionalDisconnect := false
    authenticated := false
    eventBuffer := [] }

/-- JavaScript truthiness of an optional string field
(`undefined` and the empty string are falsy). -/
def truthyStr : Option String → Bool
  | some s => decide (s ≠ "")
  | none => false

/-- A parsed inbound frame (`GatewayMessage`): optional `type`, `event`,
`data`, `id`, `error` and `result` fields.  `errorPresent` is the
truthiness of `message.error` (an object when present), `errorMessage`
its optional `message` field. -/
structure GatewayMessage where
  msgType : Option String
  event : Option String
  data : Option String
  rid : Option String
  errorPresent : Bool
  errorMessage : Option String
  result : Option String
deriving DecidableEq

/-- The fallback `message.error.message or else "RPC error"` (the JS
or-else operator also rejects the empty string). -/
def rpcErrorMessage (m : GatewayMessage) : String :=
  match m.errorMessage with
  | some s => if s = "" then "RPC error" else s
  | none => "RPC error"

/-- The four lifecycle topics excluded from buffering in `emitEvent`
(the source spells the auth-failure topic `auth_failed`). -/
def lifecycleTopics : List String :=
  ["connected", "disconnected", "auth_failed", "error"]

/-- `this.eventBuffer.push(e); if (length > SIZE) shift()`. -/
def pushBuffer (buf : List BufEntry) (e : BufEntry) : List BufEntry :=
  let b := buf ++ [e]
  if b.length > EVENT_RING_BUFFER_SIZE then b.drop 1 else b

/-- `this.eventListeners.get(event)`. -/
def listenersFor (st : ClientState) (event : String) : Option (List Nat) :=
  (st.eventListeners.find? (fun p => p.1 = event)).map Prod.snd

/-- `Set.add`: append if not already a member. -/
def addListener (ls : List Nat) (cb : Nat) : List Nat :=
  if cb ∈ ls then ls else ls ++ [cb]

/-- `GatewayClient.emitEvent(event, data)`: buffer unless lifecycle
topic, then invoke exact-topic listeners, then wildcard listeners
(callback exceptions are caught per listener and do not stop
delivery, so every registered listener yields one output). -/
def emitEvent (st : ClientState) (event : String) (data : Option String) :
    ClientState × List Output :=
  let buf :=
    if event ∈ lifecycleTopics then st.eventBuffer
    else pushBuffer st.eventBuffer ⟨event, data⟩
  let exactCalls :=
    match listenersFor st event with
    | some ls => ls.map (fun cb => Output.listenerCall cb data)
    | none => []
  let wildCalls := st.wildcardListeners.map
    (fun cb => Output.wildcardCall cb event data)
  ({ st with eventBuffer := buf }, exactCalls ++ wildCalls)

/-- Body of `GatewayClient.handleMessage` after a successful
`JSON.parse`. -/
def handleParsed (st : ClientState) (m : GatewayMessage) :
    ClientState × List Output :=
  if m.msgType = some "event" ∧ truthyStr m.event = true then
    emitEvent st (m.event.getD "") m.data
  else if truthyStr m.rid = true then
    if m.rid.getD "" ∈ st.pendingRequests then
      ({ st with
          pendingRequests := st.pendingRequests.erase (m.rid.getD "")
          rpcTimers := st.rpcTimers.erase (m.rid.getD "") },
       [if m.errorPresent then
          Output.rejectedWith (m.rid.getD "") (rpcErrorMessage m)
        else
          Output.resolved (m.rid.getD "") m.result])
    else (st, [])
  else (st, [])

/-- `GatewayClient.handleMessage(data)`: `none` is an unparseable frame,
whose `JSON.parse` exception is caught and only logged. -/
def handleMessage (st : ClientState) (parsed : Option GatewayMessage) :
    ClientState × List Output :=
  match parsed with
  | none => (st, [])
  | some m => handleParsed st m

/-- `GatewayClient.call(method, params)` with the fresh
`crypto.randomUUID()` id passed explicitly.  Throws (returns
`Except.error`) before touching any state when the socket is absent or
not open; otherwise arms the 30 s timeout, records the pending entry and
sends the request. -/
def call (st : ClientState) (rid method : String) (params : Option String) :
    Except String (ClientState × List Output) :=
  if st.wsPresent = false ∨ st.wsReady ≠ WsReady.opened then
    Except.error "WebSocket not connected"
  else
    Except.ok
      ({ st with
          pendingRequests := st.pendingRequests ++ [rid]
          rpcTimers := st.rpcTimers ++ [rid] },
       [Output.wireSend rid method params])

/-- The 30 s timeout callback of `call` firing for id `rid`: only
possible while the timer is armed; deletes the pending entry and rejects
with the timeout error. -/
def rpcTimeoutFire (st : ClientState) (rid : String) :
    ClientState × List Output :=
  if rid ∈ st.rpcTimers then
    ({ st with
        pendingRequests := st.pendingRequests.erase rid
        rpcTimers := st.rpcTimers.erase rid },
     [Output.rejectedWith rid "RPC call timed out"])
  else (st, [])

/-- `Map.set` on `eventListeners` adding `cb` to topic `event`. -/
def addTopicListener (m : List (String × List Nat)) (event : String)
    (cb : Nat) : List (String × List Nat) :=
  match m.find? (fun p => p.1 = event) with
  | some _ => m.map (fun p => if p.1 = event then (p.1, addListener p.2 cb) else p)
  | none => m ++ [(event, [cb])]

/-- `GatewayClient.on(event, callback)` (`on` is notation in Mathlib, so
the Lean name is `onListen`): `"*"` registers a wildcard listener and
synchronously replays the whole buffer to it before returning; any
other topic only registers. -/
def onListen (st : ClientState) (event : String) (cb : Nat) :
    ClientState × List Output :=
  if event = "*" then
    ({ st with wildcardListeners := addListener st.wildcardListeners cb },
     st.eventBuffer.map (fun e => Output.wildcardCall cb e.event e.data))
  else
    ({ st with eventListeners := addTopicListener st.eventListeners event cb },
     [])

/-- `GatewayClient.off(event, callback)`. -/
def off (st : ClientState) (event : String) (cb : Nat) : ClientState :=
  if event = "*" then
    { st with wildcardListeners := st.wildcardListeners.erase cb }
  else
    let m := st.eventListeners.map
      (fun p => if p.1 = event then (p.1, p.2.erase cb) else p)
    { st with eventListeners := m }

/-- The `onclose` handler installed by `connect`: drop authentication,
emit the lifecycle `disconnected` event, and — unless the disconnect was
intentional, and while under the attempt budget — schedule a reconnect
after the current delay, then double the delay capped at 30000 ms.
(The handler reads `intentionalDisconnect`, `reconnectAttempts` and
`reconnectDelay` after `emitEvent`, which never writes them, so they are
read off `st` here.) -/
def handleClose (st : ClientState) : ClientState × List Output :=
  let r := emitEvent { st with authenticated := false, wsReady := WsReady.closedWs }
    "disconnected" (some "{}")
  if st.intentionalDisconnect = false ∧
      st.reconnectAttempts < maxReconnectAttempts then
    ({ r.1 with
        reconnectAttempts := st.reconnectAttempts + 1
        reconnectDelay := min (st.reconnectDelay * 2) 30000 },
     r.2 ++ [Output.scheduleReconnect st.reconnectDelay])
  else (r.1, r.2)

/-- The `onopen` handler installed by `connect`: the socket is now open
and the backoff counter and delay are reset to their initial values
(this happens before the authentication handshake runs). -/
def handleOpen (st : ClientState) : ClientState :=
  { st with
      wsPresent := true
      wsReady := WsReady.opened
      reconnectAttempts := 0
      reconnectDelay := 1000 }

/-- Handshake success inside `onopen`: sets `authenticated` and emits
the lifecycle `connected` event. -/
def authSuccess (st : ClientState) : ClientState × List Output :=
  emitEvent { st with authenticated := true } "connected" (some "{}")

/-- `GatewayClient.isConnected()`. -/
def isConnected (st : ClientState) : Bool :=
  st.wsPresent && decide (st.wsReady = WsReady.opened) && st.authenticated

/-- `GatewayClient.disconnect()`: mark intentional, drop the socket,
reject every pending request with "Connection closed" (clearing its
timer), clear the pending table and the event buffer.  The listener
registry is not touched by this method. -/
def disconnect (st : ClientState) : ClientState × List Output :=
  ({ st with
      intentionalDisconnect := true
      authenticated := false
      wsPresent := false
      wsReady := WsReady.closedWs
      pendingRequests := []
      rpcTimers := []
      eventBuffer := [] },
   st.pendingRequests.map (fun i => Output.rejectedWith i "Connection closed"))

/-- Iterated `emitEvent`, keeping only the state. -/
def emitAll (st : ClientState) (evs : List (String × Option String)) :
    ClientState :=
  evs.foldl (fun s e => (emitEvent s e.1 e.2).1) st

/-- `n` consecutive unexpected closures, collecting the scheduled
reconnect delays in order. -/
def closeTrace : ClientState → Nat → ClientState × List Nat
  | st, 0 => (st, [])
  | st, n + 1 =>
    let r := handleClose st
    let ds := r.2.filterMap (fun o =>
      match o with
      | Output.scheduleReconnect d => some d
      | _ => none)
    let rest := closeTrace r.1 n
    (rest.1, ds ++ rest.2)


/-! ### Helper lemmas -/

/-- The outputs of `emitEvent`, spelled out. -/
theorem emitEvent_snd (st : ClientState) (ev : String) (d : Option String) :
    (emitEvent st ev d).2 =
      (match listenersFor st ev with
        | some ls => ls.map (fun cb => Output.listenerCall cb d)
        | none => ([] : List Output)) ++
      st.wildcardListeners.map (fun cb => Output.wildcardCall cb ev d) := rfl

/-- Every output of `emitEvent` is a listener invocation carrying the
emitted topic and payload: it never settles a promise, schedules a
reconnect or sends on the wire. -/
theorem emitEvent_out_shape (st : ClientState) (ev : String) (d : Option String) :
    ∀ o ∈ (emitEvent st ev d).2,
      (∃ cb, o = Output.listenerCall cb d) ∨
      (∃ cb, o = Output.wildcardCall cb ev d) := by
  intro o ho
  rw [emitEvent_snd] at ho
  rcases List.mem_append.1 ho with h | h
  · left
    cases hfind : listenersFor st ev with
    | none => rw [hfind] at h; cases h
    | some ls =>
      rw [hfind] at h
      rcases List.mem_map.1 h with ⟨cb, _, rfl⟩
      exact ⟨cb, rfl⟩
  · right
    rcases List.mem_map.1 h with ⟨cb, _, rfl⟩
    exact ⟨cb, rfl⟩

/-- `rpcTimeoutFire` on an armed timer: entry removed, caller rejected. -/
theorem rpcTimeoutFire_mem (st : ClientState) (i : String)
    (hi : i ∈ st.rpcTimers) :
    rpcTimeoutFire st i =
      ({ st with
          pendingRequests := st.pendingRequests.erase i
          rpcTimers := st.rpcTimers.erase i },
       [Output.rejectedWith i "RPC call timed out"]) := by
  unfold rpcTimeoutFire
  rw [if_pos hi]

/-! ### Claims -/

/-- C10: for an inbound frame whose text is not parseable as JSON,
message handling is a no-op on all client state and invokes no listener
and settles no pending request: the parse error is caught and only
logged. -/
theorem C10_unparseable_frame_noop (st : ClientState) :
    handleMessage st none = (st, []) := rfl

def c9State : ClientState :=
  { initState with eventListeners := [("tick", [3])], wildcardListeners := [4] }

/-- C9 counterexample: with an exact-topic listener (3, on topic tick)
and a wildcard listener (4) registered, disconnect leaves the whole
listener registry in place — it is not torn down, contradicting the
claim that all four state components are cleared together. -/
theorem C9_counterexample :
    ((disconnect c9State).1.eventListeners = [("tick", [3])]) ∧
    ((disconnect c9State).1.wildcardListeners = [4]) := by decide

/-- C9 (amended): disconnect empties the pending-request table (with its
timers) and the event buffer and marks the client disconnected (socket
dropped, authentication cleared, isConnected false), but the
ListenerRegistry — exact-topic and wildcard listener sets — is retained
unchanged rather than torn down. -/
theorem C9_disconnect_teardown (st : ClientState) :
    ((disconnect st).1.pendingRequests = []) ∧
    ((disconnect st).1.rpcTimers = []) ∧
    ((disconnect st).1.eventBuffer = []) ∧
    ((disconnect st).1.wsPresent = false) ∧
    ((disconnect st).1.authenticated = false) ∧
    (isConnected (disconnect st).1 = false) ∧
    ((disconnect st).1.eventListeners = st.eventListeners) ∧
    ((disconnect st).1.wildcardListeners = st.wildcardListeners) :=
  ⟨rfl, rfl, rfl, rfl, rfl, rfl, rfl, rfl⟩

def c6State : ClientState :=
  { initState with
      wsPresent := true
      wsReady := WsReady.opened
      authenticated := false }

/-- C6 counterexample: with the socket open but authentication not yet
completed the client is not Ready (isConnected is false), yet call()
does not fail with a not-connected error: it records the pending entry
and sends the request on the wire. -/
theorem C6_counterexample :
    (isConnected c6State = false) ∧
    (call c6State "r1" "getBalance" none =
      Except.ok
        ({ c6State with pendingRequests := ["r1"], rpcTimers := ["r1"] },
         [Output.wireSend "r1" "getBalance" none])) := by
  exact ⟨rfl, rfl⟩

/-- C6 (amended): call fails immediately with the "WebSocket not
connected" error exactly when the socket is absent or not open; the
authenticated flag is not consulted.  In the failing case the error
carries no successor state and no output, so nothing is queued or sent;
in the open case — authenticated or not — the request is recorded and
sent. -/
theorem C6_call_guard (st : ClientState) (rid method : String)
    (params : Option String) :
    ((call st rid method params = Except.error "WebSocket not connected") ↔
      ¬(st.wsPresent = true ∧ st.wsReady = WsReady.opened)) ∧
    ((call st rid method params =
        Except.ok
          ({ st with
              pendingRequests := st.pendingRequests ++ [rid]
              rpcTimers := st.rpcTimers ++ [rid] },
           [Output.wireSend rid method params])) ↔
      (st.wsPresent = true ∧ st.wsReady = WsReady.opened)) := by
  have hiff : (st.wsPresent = false ∨ st.wsReady ≠ WsReady.opened) ↔
      ¬(st.wsPresent = true ∧ st.wsReady = WsReady.opened) := by
    rw [not_and_or, Bool.not_eq_true]
  unfold call
  by_cases h : st.wsPresent = false ∨ st.wsReady ≠ WsReady.opened
  · rw [if_pos h]
    refine ⟨⟨fun _ => hiff.1 h, fun _ => rfl⟩, ⟨fun hc => ?_, fun hc => ?_⟩⟩
    · cases hc
    · exact absurd hc (hiff.1 h)
  · rw [if_neg h]
    have hp : st.wsPresent = true ∧ st.wsReady = WsReady.opened := by
      by_contra hc
      exact h (hiff.2 hc)
    refine ⟨⟨fun hc => ?_, fun hc => absurd hp hc⟩, ⟨fun _ => hp, fun _ => rfl⟩⟩
    · cases hc

def c8State : ClientState := { initState with wildcardListeners := [7] }

def c8Msg : GatewayMessage :=
  { msgType := none, event := none, data := none, rid := some "orphan",
    errorPresent := false, errorMessage := none, result := some "r" }

/-- C8 counterexample: a frame carrying id "orphan" that matches no
pending request (the pending table is empty) and has no event tag is
silently dropped: the state is unchanged and no output is produced,
although a wildcard listener (7) is registered — the frame is NOT
handed to the Event Dispatcher, contradicting the claim. -/
theorem C8_counterexample :
    handleMessage c8State (some c8Msg) = (c8State, []) := by decide

/-- C8 (amended): the dispatch boundary between RPC responses and events
is the type tag, not the id-match: a frame with type "event" and a
truthy event field is handed to the Event Dispatcher; a frame without
the event tag whose id is missing/empty or matches no pending request
is dropped as a no-op. -/
theorem C8_dispatch_boundary (st : ClientState) (m : GatewayMessage) :
    ((m.msgType = some "event" ∧ truthyStr m.event = true) →
      handleMessage st (some m) = emitEvent st (m.event.getD "") m.data) ∧
    (¬(m.msgType = some "event" ∧ truthyStr m.event = true) →
      (truthyStr m.rid = false ∨ (m.rid.getD "") ∉ st.pendingRequests) →
      handleMessage st (some m) = (st, [])) := by
  constructor
  · intro h
    show handleParsed st m = _
    unfold handleParsed
    rw [if_pos h]
  · intro h hid
    show handleParsed st m = _
    unfold handleParsed
    rw [if_neg h]
    rcases hid with hid | hid
    · rw [if_neg (by simp [hid])]
    · by_cases h2 : truthyStr m.rid = true
      · rw [if_pos h2, if_neg hid]
      · rw [if_neg h2]

def c8EvMsg : GatewayMessage :=
  { msgType := some "event", event := some "tick", data := some "1",
    rid := none, errorPresent := false, errorMessage := none, result := none }

/-- Witness for C8 (amended) at concrete inputs: an event-tagged frame
is dispatched, an orphan-id response frame is dropped. -/
theorem C8_dispatch_boundary_witness :
    (handleMessage c8State (some c8EvMsg) =
      emitEvent c8State "tick" (some "1")) ∧
    (handleMessage c8State (some c8Msg) = (c8State, [])) := by
  constructor
  · exact (C8_dispatch_boundary c8State c8EvMsg).1 (by decide)
  · exact (C8_dispatch_boundary c8State c8Msg).2 (by decide) (by decide)

/-- C1: a response frame (no event tag) whose id matches a pending
request settles exactly that caller: the timeout for that id is
disarmed, the entry (and no other) is removed from the pending table,
no listener or buffer state changes, and the single output rejects the
caller when the message carries a truthy error field and resolves it
with the result otherwise.  The theorem holds for every state, so for
any set of concurrent in-flight calls each response settles only the
call with the matching id, whatever order the responses arrive in. -/
theorem C1_response_correlation (st : ClientState) (m : GatewayMessage)
    (i : String)
    (hev : ¬(m.msgType = some "event" ∧ truthyStr m.event = true))
    (hid : m.rid = some i) (hne : i ≠ "")
    (hmem : i ∈ st.pendingRequests) :
    ((handleMessage st (some m)).1.pendingRequests =
      st.pendingRequests.erase i) ∧
    ((handleMessage st (some m)).1.rpcTimers = st.rpcTimers.erase i) ∧
    (∀ j, j ≠ i →
      (j ∈ (handleMessage st (some m)).1.pendingRequests ↔
        j ∈ st.pendingRequests)) ∧
    ((handleMessage st (some m)).1.eventBuffer = st.eventBuffer) ∧
    ((handleMessage st (some m)).1.eventListeners = st.eventListeners) ∧
    ((handleMessage st (some m)).1.wildcardListeners =
      st.wildcardListeners) ∧
    ((handleMessage st (some m)).2 =
      [if m.errorPresent then Output.rejectedWith i (rpcErrorMessage m)
       else Output.resolved i m.result]) := by
  have ht : truthyStr m.rid = true := by
    rw [hid]
    exact decide_eq_true hne
  have hgd : m.rid.getD "" = i := by rw [hid]; rfl
  have hred : handleMessage st (some m) =
      ({ st with
          pendingRequests := st.pendingRequests.erase i
          rpcTimers := st.rpcTimers.erase i },
       [if m.errorPresent then Output.rejectedWith i (rpcErrorMessage m)
        else Output.resolved i m.result]) := by
    show handleParsed st m = _
    unfold handleParsed
    rw [if_neg hev, if_pos ht, hgd, if_pos hmem]
  refine ⟨by rw [hred], by rw [hred], ?_, by rw [hred], by rw [hred],
    by rw [hred], by rw [hred]⟩
  intro j hj
  rw [hred]
  exact List.mem_erase_of_ne hj

def c1State : ClientState :=
  { initState with
      wsPresent := true
      wsReady := WsReady.opened
      authenticated := true
      pendingRequests := ["a", "b"]
      rpcTimers := ["a", "b"] }

def c1Msg : GatewayMessage :=
  { msgType := none, event := none, data := none, rid := some "b",
    errorPresent := false, errorMessage := none, result := some "42" }

/-- Witness for C1 at concrete inputs: with calls a and b in flight, the
response tagged b settles only b (resolving it with its result), and a
stays pending. -/
theorem C1_response_correlation_witness :
    ((handleMessage c1State (some c1Msg)).1.pendingRequests =
      c1State.pendingRequests.erase "b") ∧
    ("a" ∈ (handleMessage c1State (some c1Msg)).1.pendingRequests ↔
      "a" ∈ c1State.pendingRequests) ∧
    ((handleMessage c1State (some c1Msg)).2 =
      [Output.resolved "b" (some "42")]) := by
  have h := C1_response_correlation c1State c1Msg "b" (by decide) rfl
    (by decide) (by decide)
  exact ⟨h.1, h.2.2.1 "a" (by decide), h.2.2.2.2.2.2⟩

/-- C2: firing the 30 s timeout of a pending call rejects exactly that
caller with the timeout error and removes its entry from the pending
table; in particular a single call issued from a state with an empty
table against a peer that never responds leaves, after its timeout
fires, an empty table. -/
theorem C2_rpc_timeout :
    (∀ (st : ClientState) (i : String), i ∈ st.rpcTimers →
      ((rpcTimeoutFire st i).1.pendingRequests =
        st.pendingRequests.erase i) ∧
      ((rpcTimeoutFire st i).1.rpcTimers = st.rpcTimers.erase i) ∧
      ((rpcTimeoutFire st i).2 =
        [Output.rejectedWith i "RPC call timed out"])) ∧
    (∀ (st : ClientState) (rid method : String) (params : Option String)
      (st1 : ClientState) (outs : List Output),
      st.pendingRequests = [] →
      call st rid method params = Except.ok (st1, outs) →
      ((rpcTimeoutFire st1 rid).1.pendingRequests = []) ∧
      ((rpcTimeoutFire st1 rid).2 =
        [Output.rejectedWith rid "RPC call timed out"])) := by
  constructor
  · intro st i hi
    rw [rpcTimeoutFire_mem st i hi]
    exact ⟨rfl, rfl, rfl⟩
  · intro st rid method params st1 outs hpend hok
    unfold call at hok
    by_cases hg : st.wsPresent = false ∨ st.wsReady ≠ WsReady.opened
    · rw [if_pos hg] at hok
      cases hok
    · rw [if_neg hg] at hok
      have h1 := Except.ok.inj hok
      cases h1
      have hm : rid ∈
          ({ st with
              pendingRequests := st.pendingRequests ++ [rid]
              rpcTimers := st.rpcTimers ++ [rid] } : ClientState).rpcTimers :=
        List.mem_append_right _ (List.mem_singleton_self rid)
      rw [rpcTimeoutFire_mem _ _ hm]
      refine ⟨?_, rfl⟩
      show (st.pendingRequests ++ [rid]).erase rid = []
      rw [hpend]
      simp

def c2Ready : ClientState :=
  { initState with
      wsPresent := true
      wsReady := WsReady.opened
      authenticated := true }

/-- Witness for C2 at concrete inputs: a single call u1 from a ready
client with an empty table; when the timeout fires the caller is
rejected with the timeout error and the table is empty again. -/
theorem C2_rpc_timeout_witness :
    ((rpcTimeoutFire
        { c2Ready with pendingRequests := ["u1"], rpcTimers := ["u1"] }
        "u1").1.pendingRequests = []) ∧
    ((rpcTimeoutFire
        { c2Ready with pendingRequests := ["u1"], rpcTimers := ["u1"] }
        "u1").2 = [Output.rejectedWith "u1" "RPC call timed out"]) := by
  exact C2_rpc_timeout.2 c2Ready "u1" "ping" none
    { c2Ready with pendingRequests := ["u1"], rpcTimers := ["u1"] }
    [Output.wireSend "u1" "ping" none] rfl rfl

/-- C4: registering a wildcard listener synchronously replays, before
the call returns, exactly the buffered events to it, one invocation per
entry in original arrival order (the returned outputs are the buffer
mapped in order); the buffer itself is replayed, not cleared; the
listener is appended to the wildcard set; and afterwards every emitted
event is delivered to it (emission preserves the wildcard set, so it
stays registered). -/
theorem C4_wildcard_replay (st : ClientState) (cb : Nat)
    (hnew : cb ∉ st.wildcardListeners) :
    ((onListen st "*" cb).2 =
      st.eventBuffer.map (fun e => Output.wildcardCall cb e.event e.data)) ∧
    ((onListen st "*" cb).1.eventBuffer = st.eventBuffer) ∧
    ((onListen st "*" cb).1.wildcardListeners =
      st.wildcardListeners ++ [cb]) ∧
    (∀ st2 : ClientState, cb ∈ st2.wildcardListeners →
      ∀ ev d, Output.wildcardCall cb ev d ∈ (emitEvent st2 ev d).2) ∧
    (∀ ev d, ((emitEvent (onListen st "*" cb).1 ev d).1).wildcardListeners =
      (onListen st "*" cb).1.wildcardListeners) := by
  refine ⟨rfl, rfl, ?_, ?_, fun ev d => rfl⟩
  · show addListener st.wildcardListeners cb = st.wildcardListeners ++ [cb]
    unfold addListener
    rw [if_neg hnew]
  · intro st2 h ev d
    rw [emitEvent_snd]
    exact List.mem_append_right _
      (List.mem_map_of_mem (fun c => Output.wildcardCall c ev d) h)

def c4State : ClientState :=
  { initState with eventBuffer := [⟨"e1", some "1"⟩, ⟨"e2", none⟩] }

/-- Witness for C4 at concrete inputs: a listener 5 registered after
events e1 and e2 were buffered is replayed both in order, ends up
registered, and receives the next emitted event e3. -/
theorem C4_wildcard_replay_witness :
    ((onListen c4State "*" 5).2 =
      [Output.wildcardCall 5 "e1" (some "1"),
       Output.wildcardCall 5 "e2" none]) ∧
    ((onListen c4State "*" 5).1.wildcardListeners = [5]) ∧
    (Output.wildcardCall 5 "e3" none ∈
      (emitEvent (onListen c4State "*" 5).1 "e3" none).2) := by
  have h := C4_wildcard_replay c4State 5 (by decide)
  exact ⟨h.1, h.2.2.1, h.2.2.2.1 (onListen c4State "*" 5).1 (by decide)
    "e3" none⟩

/-- C7: an unexpected closure leaves the pending table and the armed
timeouts untouched and rejects nobody (each request stays pending until
its own timeout fires), while an explicit disconnect immediately rejects
every pending request with the connection-closed error, clears the
pending table, its timers and the event buffer, marks the closure
intentional, and a closure arriving after it schedules no reconnect. -/
theorem C7_close_vs_disconnect (st : ClientState) :
    ((handleClose st).1.pendingRequests = st.pendingRequests) ∧
    ((handleClose st).1.rpcTimers = st.rpcTimers) ∧
    (∀ i msg, Output.rejectedWith i msg ∉ (handleClose st).2) ∧
    ((disconnect st).2 =
      st.pendingRequests.map
        (fun i => Output.rejectedWith i "Connection closed")) ∧
    ((disconnect st).1.pendingRequests = []) ∧
    ((disconnect st).1.rpcTimers = []) ∧
    ((disconnect st).1.eventBuffer = []) ∧
    ((disconnect st).1.intentionalDisconnect = true) ∧
    (∀ d, Output.scheduleReconnect d ∉ (handleClose (disconnect st).1).2) := by
  by_cases hg : st.intentionalDisconnect = false ∧
      st.reconnectAttempts < maxReconnectAttempts
  case pos =>
    refine ⟨?_, ?_, ?_, rfl, rfl, rfl, rfl, rfl, ?_⟩
    · simp only [handleClose, if_pos hg]
      rfl
    · simp only [handleClose, if_pos hg]
      rfl
    · intro i msg hmem
      simp only [handleClose, if_pos hg] at hmem
      rcases List.mem_append.1 hmem with hm | hm
      · rcases emitEvent_out_shape _ _ _ _ hm with ⟨cb, hcb⟩ | ⟨cb, hcb⟩ <;>
          simp at hcb
      · rw [List.mem_singleton] at hm
        cases hm
    · intro d hmem
      have hni : ¬((disconnect st).1.intentionalDisconnect = false ∧
          (disconnect st).1.reconnectAttempts < maxReconnectAttempts) := by
        rintro ⟨h1, -⟩
        exact Bool.noConfusion h1
      simp only [handleClose, if_neg hni] at hmem
      rcases emitEvent_out_shape _ _ _ _ hmem with ⟨cb, hcb⟩ | ⟨cb, hcb⟩ <;>
        simp at hcb
  case neg =>
    refine ⟨?_, ?_, ?_, rfl, rfl, rfl, rfl, rfl, ?_⟩
    · simp only [handleClose, if_neg hg]
      rfl
    · simp only [handleClose, if_neg hg]
      rfl
    · intro i msg hmem
      simp only [handleClose, if_neg hg] at hmem
      rcases emitEvent_out_shape _ _ _ _ hmem with ⟨cb, hcb⟩ | ⟨cb, hcb⟩ <;>
        simp at hcb
    · intro d hmem
      have hni : ¬((disconnect st).1.intentionalDisconnect = false ∧
          (disconnect st).1.reconnectAttempts < maxReconnectAttempts) := by
        rintro ⟨h1, -⟩
        exact Bool.noConfusion h1
      simp only [handleClose, if_neg hni] at hmem
      rcases emitEvent_out_shape _ _ _ _ hmem with ⟨cb, hcb⟩ | ⟨cb, hcb⟩ <;>
        simp at hcb

def c7State : ClientState :=
  { initState with
      wsPresent := true
      wsReady := WsReady.opened
      authenticated := true
      pendingRequests := ["p", "q"]
      rpcTimers := ["p", "q"] }

/-- Witness for C7 at concrete inputs: with calls p and q in flight, an
unexpected closure keeps both pending and rejects neither, while an
explicit disconnect rejects both with the connection-closed error. -/
theorem C7_close_vs_disconnect_witness :
    ((handleClose c7State).1.pendingRequests = ["p", "q"]) ∧
    (Output.rejectedWith "p" "Connection closed" ∉ (handleClose c7State).2) ∧
    ((disconnect c7State).2 =
      [Output.rejectedWith "p" "Connection closed",
       Output.rejectedWith "q" "Connection closed"]) ∧
    (Output.scheduleReconnect 1000 ∉
      (handleClose (disconnect c7State).1).2) := by
  have h := C7_close_vs_disconnect c7State
  exact ⟨h.1, h.2.2.1 "p" "Connection closed", h.2.2.2.1,
    h.2.2.2.2.2.2.2.2 1000⟩

/-- C5: from a fresh client, six consecutive failed attempts schedule
exactly five reconnects, with delays 1 s, 2 s, 4 s, 8 s and 16 s in that
order and none for the sixth closure; once the attempt budget is
reached no closure schedules a reconnect; every scheduled delay is the
current delay, itself kept at or below the 30 s cap by the doubling
rule; and after the socket opens and the handshake succeeds the backoff
counter and delay again hold their initial values 0 and 1000 ms. -/
theorem C5_reconnect_backoff :
    ((closeTrace initState 6).2 = [1000, 2000, 4000, 8000, 16000]) ∧
    (∀ st : ClientState, maxReconnectAttempts ≤ st.reconnectAttempts →
      ∀ d, Output.scheduleReconnect d ∉ (handleClose st).2) ∧
    (∀ st : ClientState, st.reconnectDelay ≤ 30000 →
      ∀ d, Output.scheduleReconnect d ∈ (handleClose st).2 →
        d ≤ 30000 ∧ d = st.reconnectDelay ∧
        (handleClose st).1.reconnectDelay = min (st.reconnectDelay * 2) 30000) ∧
    (∀ st : ClientState,
      ((authSuccess (handleOpen st)).1.reconnectAttempts = 0) ∧
      ((authSuccess (handleOpen st)).1.reconnectDelay = 1000)) := by
  refine ⟨by decide, ?_, ?_, fun st => ⟨rfl, rfl⟩⟩
  · intro st h5 d hmem
    have hng : ¬(st.intentionalDisconnect = false ∧
        st.reconnectAttempts < maxReconnectAttempts) := by
      rintro ⟨-, hlt⟩
      omega
    simp only [handleClose, if_neg hng] at hmem
    rcases emitEvent_out_shape _ _ _ _ hmem with ⟨cb, hcb⟩ | ⟨cb, hcb⟩ <;>
      simp at hcb
  · intro st hle d hmem
    by_cases hg : st.intentionalDisconnect = false ∧
        st.reconnectAttempts < maxReconnectAttempts
    · simp only [handleClose, if_pos hg] at hmem
      rcases List.mem_append.1 hmem with hm | hm
      · rcases emitEvent_out_shape _ _ _ _ hm with ⟨cb, hcb⟩ | ⟨cb, hcb⟩ <;>
          simp at hcb
      · rw [List.mem_singleton] at hm
        have hd : d = st.reconnectDelay := by
          injection hm
        refine ⟨hd ▸ hle, hd, ?_⟩
        simp only [handleClose, if_pos hg]
    · simp only [handleClose, if_neg hg] at hmem
      rcases emitEvent_out_shape _ _ _ _ hmem with ⟨cb, hcb⟩ | ⟨cb, hcb⟩ <;>
        simp at hcb

/-- Witness for C5 at concrete inputs: the fresh-client delay trace; a
client at the attempt budget schedules nothing; the first scheduled
delay of a fresh client is its current 1000 ms delay, below the cap,
and the delay then doubles to 2000 ms; open-then-handshake-success
resets the counter and delay. -/
theorem C5_reconnect_backoff_witness :
    ((closeTrace initState 6).2 = [1000, 2000, 4000, 8000, 16000]) ∧
    (Output.scheduleReconnect 1000 ∉
      (handleClose { initState with reconnectAttempts := 5 }).2) ∧
    ((1000 : Nat) ≤ 30000 ∧ (1000 : Nat) = initState.reconnectDelay ∧
      (handleClose initState).1.reconnectDelay =
        min (initState.reconnectDelay * 2) 30000) ∧
    ((authSuccess (handleOpen initState)).1.reconnectAttempts = 0) := by
  refine ⟨C5_reconnect_backoff.1,
    C5_reconnect_backoff.2.1 { initState with reconnectAttempts := 5 }
      (by decide) 1000, ?_,
    (C5_reconnect_backoff.2.2.2 initState).1⟩
  exact C5_reconnect_backoff.2.2.1 initState (by decide) 1000 (by decide)

/-- Appending to a buffer at or under capacity and evicting on overflow
keeps it at or under capacity. -/
theorem pushBuffer_length_le (buf : List BufEntry) (e : BufEntry)
    (h : buf.length ≤ EVENT_RING_BUFFER_SIZE) :
    (pushBuffer buf e).length ≤ EVENT_RING_BUFFER_SIZE := by
  unfold pushBuffer
  simp only [EVENT_RING_BUFFER_SIZE] at h ⊢
  split
  · simp only [List.length_drop, List.length_append, List.length_cons,
      List.length_nil]
    omega
  · next hn =>
    omega

/-- One `emitEvent` step preserves the capacity bound. -/
theorem emitEvent_buffer_length_le (st : ClientState) (ev : String)
    (d : Option String) (h : st.eventBuffer.length ≤ EVENT_RING_BUFFER_SIZE) :
    ((emitEvent st ev d).1).eventBuffer.length ≤ EVENT_RING_BUFFER_SIZE := by
  show (if ev ∈ lifecycleTopics then st.eventBuffer
    else pushBuffer st.eventBuffer ⟨ev, d⟩).length ≤ EVENT_RING_BUFFER_SIZE
  split
  · exact h
  · exact pushBuffer_length_le _ _ h

/-- The capacity bound is an invariant of any emission sequence. -/
theorem emitAll_buffer_length_le (evs : List (String × Option String)) :
    ∀ st : ClientState, st.eventBuffer.length ≤ EVENT_RING_BUFFER_SIZE →
      (emitAll st evs).eventBuffer.length ≤ EVENT_RING_BUFFER_SIZE := by
  induction evs with
  | nil => exact fun st h => h
  | cons e tl ih =>
    intro st h
    exact ih _ (emitEvent_buffer_length_le _ _ _ h)

/-- Emitting a non-lifecycle event into a full buffer evicts exactly the
oldest entry. -/
theorem emitEvent_buffer_full (st : ClientState) (ev : String)
    (d : Option String) (hlc : ev ∉ lifecycleTopics)
    (hlen : st.eventBuffer.length = EVENT_RING_BUFFER_SIZE) :
    ((emitEvent st ev d).1).eventBuffer =
      st.eventBuffer.drop 1 ++ [⟨ev, d⟩] := by
  show (if ev ∈ lifecycleTopics then st.eventBuffer
    else pushBuffer st.eventBuffer ⟨ev, d⟩) = _
  rw [if_neg hlc]
  unfold pushBuffer
  rw [if_pos (by simp [hlen, EVENT_RING_BUFFER_SIZE])]
  rw [List.drop_append_of_le_length (by simp [hlen, EVENT_RING_BUFFER_SIZE])]

/-- C3: the event buffer holds at most 500 entries after any sequence of
emissions from a fresh client; a lifecycle-topic emission never touches
the buffer; a non-lifecycle emission into a full buffer evicts exactly
the oldest entry; and that evicted entry is no longer replayed to a
wildcard listener registered afterwards (provided the entry is not
duplicated later in the buffer and differs from the new event). -/
theorem C3_buffer_bound :
    (∀ evs : List (String × Option String),
      (emitAll initState evs).eventBuffer.length ≤ EVENT_RING_BUFFER_SIZE) ∧
    (∀ (st : ClientState) (ev : String) (d : Option String),
      ev ∈ lifecycleTopics →
      ((emitEvent st ev d).1).eventBuffer = st.eventBuffer) ∧
    (∀ (st : ClientState) (ev : String) (d : Option String),
      ev ∉ lifecycleTopics →
      st.eventBuffer.length = EVENT_RING_BUFFER_SIZE →
      ((emitEvent st ev d).1).eventBuffer =
        st.eventBuffer.drop 1 ++ [⟨ev, d⟩]) ∧
    (∀ (st : ClientState) (ev : String) (d : Option String) (cb : Nat)
      (e0 : BufEntry) (rest : List BufEntry),
      st.eventBuffer = e0 :: rest →
      ev ∉ lifecycleTopics →
      st.eventBuffer.length = EVENT_RING_BUFFER_SIZE →
      e0 ∉ rest → e0 ≠ ⟨ev, d⟩ →
      Output.wildcardCall cb e0.event e0.data ∉
        (onListen ((emitEvent st ev d).1) "*" cb).2) := by
  refine ⟨fun evs => emitAll_buffer_length_le evs initState (by decide),
    ?_, fun st ev d => emitEvent_buffer_full st ev d, ?_⟩
  · intro st ev d h
    show (if ev ∈ lifecycleTopics then st.eventBuffer
      else pushBuffer st.eventBuffer ⟨ev, d⟩) = _
    rw [if_pos h]
  · intro st ev d cb e0 rest hbuf hlc hlen h0 hne hmem
    have hrep : (onListen ((emitEvent st ev d).1) "*" cb).2 =
        ((emitEvent st ev d).1).eventBuffer.map
          (fun e => Output.wildcardCall cb e.event e.data) := rfl
    rw [hrep, emitEvent_buffer_full st ev d hlc hlen, hbuf] at hmem
    simp only [List.drop_one, List.tail_cons] at hmem
    rcases List.mem_map.1 hmem with ⟨e, he, heq⟩
    have he0 : e = e0 := by
      obtain ⟨ee, ed⟩ := e
      obtain ⟨e0e, e0d⟩ := e0
      simp only [Output.wildcardCall.injEq] at heq
      simp [heq.2.1, heq.2.2]
    rw [he0] at he
    rcases List.mem_append.1 he with hm | hm
    · exact h0 hm
    · rw [List.mem_singleton] at hm
      exact hne hm

def fullBuffer : List BufEntry :=
  (List.range 500).map (fun n => ⟨"t" ++ toString n, none⟩)

def fullState : ClientState := { initState with eventBuffer := fullBuffer }

set_option maxRecDepth 400000 in
/-- Witness for C3 at concrete inputs: one emission respects the bound;
a lifecycle connected emission leaves the buffer alone; emitting x into
a full 500-entry buffer t0..t499 evicts t0, and a wildcard listener 9
registered afterwards is not replayed t0. -/
theorem C3_buffer_bound_witness :
    ((emitAll initState [("a", none)]).eventBuffer.length ≤
      EVENT_RING_BUFFER_SIZE) ∧
    (((emitEvent initState "connected" none).1).eventBuffer =
      initState.eventBuffer) ∧
    (((emitEvent fullState "x" none).1).eventBuffer =
      fullState.eventBuffer.drop 1 ++ [⟨"x", none⟩]) ∧
    (Output.wildcardCall 9 "t0" none ∉
      (onListen ((emitEvent fullState "x" none).1) "*" 9).2) := by
  refine ⟨C3_buffer_bound.1 [("a", none)],
    C3_buffer_bound.2.1 initState "connected" none (by decide),
    C3_buffer_bound.2.2.1 fullState "x" none (by decide) (by decide), ?_⟩
  exact C3_buffer_bound.2.2.2 fullState "x" none 9 ⟨"t0", none⟩
    (fullState.eventBuffer.drop 1) (by decide) (by decide) (by decide)
    (by decide) (by decide)

/-- Witness for C6 (amended) at concrete inputs: a fresh client (no
socket) fails the call with the not-connected error; an
open-but-unauthenticated client sends it. -/
theorem C6_call_guard_witness :
    (call initState "r0" "m" none =
      Except.error "WebSocket not connected") ∧
    (call c6State "r1" "getBalance" none =
      Except.ok
        ({ c6State with pendingRequests := ["r1"], rpcTimers := ["r1"] },
         [Output.wireSend "r1" "getBalance" none])) := by
  constructor
  · exact (C6_call_guard initState "r0" "m" none).1.mpr (by decide)
  · exact (C6_call_guard c6State "r1" "getBalance" none).2.mpr (by decide)

/-- Witness for C9 (amended) at a concrete input: disconnect on a client
with registered listeners empties the pending table but keeps the exact
listener map. -/
theorem C9_disconnect_teardown_witness :
    ((disconnect c9State).1.pendingRequests = []) ∧
    ((disconnect c9State).1.eventListeners = c9State.eventListeners) := by
  have h := C9_disconnect_teardown c9State
  exact ⟨h.1, h.2.2.2.2.2.2.1⟩

/-- Witness for C10 at a concrete input. -/
theorem C10_unparseable_frame_noop_witness :
    handleMessage initState none = (initState, []) :=
  C10_unparseable_frame_noop initState

end Gateway
